import Mathlib

/-!
Verification of the Growgent decision-and-alerting core against its
natural-language specification.

The definitions below are a shallow embedding of the Python source under
`Backend/app`.  Conventions used throughout:

* Python `float` values are modelled as exact rationals (`ℚ`).  All the
  constants appearing in the code (0.5, 0.7, 30.0, …) are exactly
  representable, and the comparisons the code performs are modelled by the
  corresponding exact comparisons on `ℚ`.
* Instants are rational numbers of hours measured from an arbitrary epoch;
  `datetime.now()` inside one function invocation is modelled by a single
  parameter `now`.
* Python `Optional[...]` slots become `Option`; Python dict lookups with a
  default become `Option.getD`.
* A Python timestamp *string* is modelled by the inductive `TsStr` below,
  which records the only three behaviours `datetime.fromisoformat` plus a
  naive/aware subtraction can exhibit.
* Fallible code returns `Except`/`Option`; database rows become entries of
  explicit in-memory lists threaded through the functions.
-/

namespace Growgent

/-- `RecommendationAction` from `app/models/recommendation.py`. -/
inductive RecommendationAction where
  | IRRIGATE
  | DELAY
  | MONITOR
  | PRE_IRRIGATE
deriving DecidableEq, Repr

/-- Model of a `predicted_start_time` string as consumed by
`datetime.fromisoformat(s.replace("Z", "+00:00"))` followed by a subtraction
against `datetime.now(...)`:

* `naive t` — the string parses and carries no UTC offset; `t` is the encoded
  instant in hours.  Subtracting a naive `datetime.now()` succeeds, while
  subtracting an aware `datetime.now(timezone.utc)` raises `TypeError`.
* `aware t` — the string carries an offset (e.g. a trailing `Z`); the parse
  succeeds and yields an aware datetime.  Subtracting a naive now raises
  `TypeError`, subtracting an aware now succeeds.
* `malformed` — `fromisoformat` raises `ValueError`.
-/
inductive TsStr where
  | naive (t : ℚ)
  | aware (t : ℚ)
  | malformed
deriving DecidableEq, Repr

/-- Hours-until computation of `irrigation.py:_make_decision`, where `now` is
the *naive* `datetime.now()`: returns `none` exactly when the
`(ValueError, TypeError)` handler would swallow the prediction. -/
def hoursUntilNaiveNow (now : ℚ) : TsStr → Option ℚ
  | TsStr.naive t => some (t - now)
  | TsStr.aware _ => none
  | TsStr.malformed => none

/-- Hours-until computation of `agents/psps.py:_check_pre_irrigation`, where
`now` is the *aware* `datetime.now(timezone.utc)`. -/
def hoursUntilAwareNow (now : ℚ) : TsStr → Option ℚ
  | TsStr.naive _ => none
  | TsStr.aware t => some (t - now)
  | TsStr.malformed => none

/-- One element of `state.psps_predictions` in `irrigation.py`.  A `none`
timestamp models a missing (or empty, hence falsy) `predicted_start_time`. -/
structure PspsPrediction where
  predicted_start_time : Option TsStr
deriving DecidableEq, Repr

/-- `ndvi_data["current"]` with the two dict lookups the code performs. -/
structure NdviCurrent where
  ndvi : Option ℚ
  health_status : Option String
deriving DecidableEq, Repr

/-- `state.ndvi_data`; the `"current"` key may be absent. -/
structure NdviData where
  current : Option NdviCurrent
deriving DecidableEq, Repr

/-- One zone of `fire_risk_data["zones"]`; `risk_score` may be absent
(`zone.get("risk_score", 0.0)`). -/
structure FireRiskZone where
  risk_score : Option ℚ
deriving DecidableEq, Repr

/-- `state.fire_risk_data`; the `"zones"` key may be absent or null. -/
structure FireRiskData where
  zones : Option (List FireRiskZone)
deriving DecidableEq, Repr

/-- `weather_forecast["current"]`. -/
structure WeatherCurrent where
  temperature : Option ℚ
deriving DecidableEq, Repr

/-- One day of `weather_forecast["forecast"]`. -/
structure WeatherDay where
  precipitation : Option ℚ
deriving DecidableEq, Repr

/-- `state.weather_forecast`. -/
structure WeatherForecast where
  current : Option WeatherCurrent
  forecast : Option (List WeatherDay)
deriving DecidableEq, Repr

/-- `FireAdaptiveIrrigationAgent._calculate_fire_risk_score`:
0.5 when the data or the `"zones"` key is missing or the list is empty,
otherwise the maximum `risk_score` (missing per-zone scores default to 0). -/
def calculate_fire_risk_score : Option FireRiskData → ℚ
  | none => 1/2
  | some d =>
    match d.zones with
    | none => 1/2
    | some [] => 1/2
    | some zs => zs.foldl (fun m z => max m (z.risk_score.getD 0)) 0

/-- `FireAdaptiveIrrigationAgent._calculate_drought_risk_score`. -/
def calculate_drought_risk_score (soil_moisture : Option ℚ)
    (weather : Option WeatherForecast) : ℚ :=
  let risk : ℚ :=
    match soil_moisture with
    | some m => if m < 30 then 7/10 else if m < 50 then 4/10 else 1/10
    | none => 0
  let risk :=
    match weather with
    | some w =>
      match w.forecast with
      | some days =>
        let totalPrecip := (days.take 3).foldl (fun acc d => acc + d.precipitation.getD 0) 0
        if totalPrecip < 5 then risk + 3/10 else risk
      | none => risk
    | none => risk
  min 1 risk

/-- `FireAdaptiveIrrigationAgent._calculate_water_need`. -/
def calculate_water_need (crop_stage : Option String)
    (weather : Option WeatherForecast) : ℚ :=
  let key := crop_stage.getD "vegetative"
  let base : ℚ :=
    if key = "seedling" then 6/10
    else if key = "vegetative" then 8/10
    else if key = "flowering" then 1
    else if key = "maturity" then 7/10
    else 8/10
  let base :=
    match weather with
    | some w =>
      match w.current with
      | some c =>
        let temp := c.temperature.getD 20
        if 30 < temp then base * 13/10 else if 25 < temp then base * 11/10 else base
      | none => base
    | none => base
  min 1 base

/-- The slice of `IrrigationAgentState` that `_make_decision` reads, together
with the single `now` instant of the invocation.  `fire_risk_score` and
`drought_risk_score` are the values `_calculate_metrics` stored. -/
structure DecisionInput where
  now : ℚ
  psps_predictions : Option (List PspsPrediction)
  fire_risk_score : Option ℚ
  current_soil_moisture : Option ℚ
  drought_risk_score : Option ℚ
  ndvi_data : Option NdviData
deriving DecidableEq, Repr

/-- The part of the state `_make_decision` writes. -/
structure DecisionResult where
  recommended_action : RecommendationAction
  recommended_timing : ℚ
  psps_alert : Bool
deriving DecidableEq, Repr

/-- The `crop_health_poor` flag computed inside `_make_decision`: defaults are
`ndvi = 0.5` and `health_status = "fair"`. -/
def crop_health_poor : Option NdviData → Bool
  | none => false
  | some d =>
    match d.current with
    | none => false
    | some c =>
      let v := c.ndvi.getD (1/2)
      let h := c.health_status.getD "fair"
      if h = "poor" ∨ v < 3/10 then true else false

/-- The PSPS loop of `_make_decision`: first prediction whose timestamp parses
against the naive `now` and lands in the window `0 < hours_until ≤ 36`
returns its `hours_until`; parse failures (`ValueError`/`TypeError`) and
out-of-window predictions are skipped. -/
def scanPsps (now : ℚ) : List PspsPrediction → Option ℚ
  | [] => none
  | p :: rest =>
    match p.predicted_start_time with
    | none => scanPsps now rest
    | some ts =>
      match hoursUntilNaiveNow now ts with
      | none => scanPsps now rest
      | some h => if 0 < h ∧ h ≤ 36 then some h else scanPsps now rest

/-- Whether the NDVI current reading lacks its `"ndvi"` key.  When
`crop_health_poor` is true (which requires a truthy `ndvi_data` with a
`"current"` entry), the IRRIGATE reason construction performs the raw access
`state.ndvi_data["current"]["ndvi"]` (no `.get` default), so a missing
`"ndvi"` key raises `KeyError` there; the exception escapes `_make_decision`
and is caught only by `process`'s outer handler, which stores the error. -/
def ndvi_value_missing : Option NdviData → Bool
  | none => false
  | some d =>
    match d.current with
    | none => false
    | some c => c.ndvi.isNone

/-- The non-PSPS cascade of `_make_decision` (rules DELAY / IRRIGATE /
MONITOR), reached when no PSPS prediction qualifies.  The IRRIGATE branch
raises `KeyError` while formatting its reason whenever `crop_health_poor`
holds but the current NDVI reading has no `"ndvi"` value; every other branch
builds its reason from values its own guard proved present and cannot
raise. -/
def decideRest (s : DecisionInput) : Except String DecisionResult :=
  let fire_risk_high :=
    match s.fire_risk_score with
    | some r => decide (7/10 ≤ r)
    | none => false
  let soil_moisture_sufficient :=
    match s.current_soil_moisture with
    | some m => decide (50 ≤ m)
    | none => false
  let soil_moisture_low :=
    match s.current_soil_moisture with
    | some m => decide (m < 30)
    | none => false
  let drought_risk_high :=
    match s.drought_risk_score with
    | some r => decide (6/10 ≤ r)
    | none => false
  if fire_risk_high && soil_moisture_sufficient then
    Except.ok ⟨RecommendationAction.DELAY, s.now + 24, false⟩
  else if soil_moisture_low || drought_risk_high || crop_health_poor s.ndvi_data then
    if crop_health_poor s.ndvi_data && ndvi_value_missing s.ndvi_data then
      Except.error "KeyError: ndvi"
    else
      Except.ok ⟨RecommendationAction.IRRIGATE, s.now + 6, false⟩
  else
    Except.ok ⟨RecommendationAction.MONITOR, s.now + 12, false⟩

/-- `FireAdaptiveIrrigationAgent._make_decision`.  A falsy
`psps_predictions` (absent list — an empty list behaves identically) skips
the PSPS loop; a qualifying prediction returns immediately with
`recommended_timing = now + (hours_until − 12)` and `psps_alert` set, before
any reason-formatting hazard; otherwise the cascade runs and may raise. -/
def make_decision (s : DecisionInput) : Except String DecisionResult :=
  match s.psps_predictions with
  | none => decideRest s
  | some l =>
    match scanPsps s.now l with
    | some h => Except.ok ⟨RecommendationAction.PRE_IRRIGATE, s.now + (h - 12), true⟩
    | none => decideRest s

/-- `FireAdaptiveIrrigationAgent._calculate_impact`, restricted to the two
fields it computes from `recommended_action` and `fire_risk_score`
(`fire_risk_reduction_percent`, `water_saved_liters`).  The Python
conditional `state.fire_risk_score * 20.0 if state.fire_risk_score else 0.0`
treats both `None` and `0.0` as falsy. -/
def calculate_impact (action : RecommendationAction) (fire_risk_score : Option ℚ) :
    ℚ × ℚ :=
  let firr :=
    if action = RecommendationAction.DELAY then
      min 15 (match fire_risk_score with
              | some r => if r = 0 then 0 else r * 20
              | none => 0)
    else 0
  let water : ℚ := if action = RecommendationAction.DELAY then 5000 else 0
  (firr, water)

example : calculate_fire_risk_score (some ⟨some [⟨some (17/20)⟩, ⟨some (1/10)⟩]⟩) = 17/20 := by
  norm_num [calculate_fire_risk_score]

example :
    make_decision ⟨0, some [⟨some (TsStr.naive 20)⟩], some (1/10), some 90, some (1/10), none⟩
      = Except.ok ⟨RecommendationAction.PRE_IRRIGATE, 8, true⟩ := by
  norm_num [make_decision, scanPsps, hoursUntilNaiveNow]

example :
    make_decision ⟨0, none, some (17/20), some 55, some (1/10), none⟩
      = Except.ok ⟨RecommendationAction.DELAY, 24, false⟩ := by
  norm_num [make_decision, decideRest]

example :
    make_decision ⟨0, none, some (1/2), none, some 0, some ⟨some ⟨none, some "poor"⟩⟩⟩
      = Except.error "KeyError: ndvi" := by
  norm_num [make_decision, decideRest, crop_health_poor, ndvi_value_missing]

/-- If some prediction in the list is naive and lands in the `(0, 36]` window,
the PSPS scan finds a qualifying prediction. -/
theorem scanPsps_isSome_of_window (now : ℚ) (l : List PspsPrediction)
    (hex : ∃ p ∈ l, ∃ t, p.predicted_start_time = some (TsStr.naive t) ∧
      0 < t - now ∧ t - now ≤ 36) :
    (scanPsps now l).isSome = true := by
  induction l with
  | nil => rcases hex with ⟨p, hp, _⟩; cases hp
  | cons q rest ih =>
    rcases hex with ⟨p, hp, t, hts, h1, h2⟩
    rcases List.mem_cons.mp hp with rfl | hmem
    · simp only [scanPsps, hts, hoursUntilNaiveNow]
      rw [if_pos ⟨h1, h2⟩]
      rfl
    · have hrest : ∃ p ∈ rest, ∃ t, p.predicted_start_time = some (TsStr.naive t) ∧
          0 < t - now ∧ t - now ≤ 36 := ⟨p, hmem, t, hts, h1, h2⟩
      cases hq : q.predicted_start_time with
      | none => simpa only [scanPsps, hq] using ih hrest
      | some ts =>
        cases hts' : hoursUntilNaiveNow now ts with
        | none => simpa only [scanPsps, hq, hts'] using ih hrest
        | some h =>
          simp only [scanPsps, hq, hts']
          by_cases hw : 0 < h ∧ h ≤ 36
          · rw [if_pos hw]; rfl
          · rw [if_neg hw]; exact ih hrest

/-- Whatever the PSPS scan returns is in the `(0, 36]` window. -/
theorem scanPsps_bounds (now : ℚ) :
    ∀ (l : List PspsPrediction) (h : ℚ), scanPsps now l = some h → 0 < h ∧ h ≤ 36 := by
  intro l
  induction l with
  | nil => intro h hcontra; cases hcontra
  | cons q rest ih =>
    intro h hq
    cases hts : q.predicted_start_time with
    | none => exact ih h (by simpa only [scanPsps, hts] using hq)
    | some ts =>
      cases hts' : hoursUntilNaiveNow now ts with
      | none => exact ih h (by simpa only [scanPsps, hts, hts'] using hq)
      | some h0 =>
        simp only [scanPsps, hts, hts'] at hq
        by_cases hw : 0 < h0 ∧ h0 ≤ 36
        · rw [if_pos hw] at hq
          cases hq
          exact hw
        · rw [if_neg hw] at hq
          exact ih h hq

/-- C1: any snapshot containing a PSPS prediction whose naive
`predicted_start_time` lies strictly between `now` and `now + 36` hours makes
`_make_decision` return `PRE_IRRIGATE` with `psps_alert` set, regardless of
the fire-risk, soil-moisture, drought-risk and NDVI slots; the winner is the
first prediction the scan accepts (`scanPsps`), no later prediction is
evaluated, and the recommended timing is that prediction's start minus 12
hours (`now + (hours_until - 12)`). -/
theorem c1_psps_window_forces_pre_irrigate (s : DecisionInput) (l : List PspsPrediction)
    (hl : s.psps_predictions = some l)
    (hex : ∃ p ∈ l, ∃ t, p.predicted_start_time = some (TsStr.naive t) ∧
      0 < t - s.now ∧ t - s.now < 36) :
    ∃ h, scanPsps s.now l = some h ∧ 0 < h ∧ h ≤ 36 ∧
      make_decision s = Except.ok ⟨RecommendationAction.PRE_IRRIGATE, s.now + (h - 12), true⟩ := by
  have hex' : ∃ p ∈ l, ∃ t, p.predicted_start_time = some (TsStr.naive t) ∧
      0 < t - s.now ∧ t - s.now ≤ 36 := by
    rcases hex with ⟨p, hp, t, hts, h1, h2⟩
    exact ⟨p, hp, t, hts, h1, le_of_lt h2⟩
  have hsome := scanPsps_isSome_of_window s.now l hex'
  cases hscan : scanPsps s.now l with
  | none => rw [hscan] at hsome; cases hsome
  | some h =>
    obtain ⟨hb1, hb2⟩ := scanPsps_bounds s.now l h hscan
    refine ⟨h, rfl, hb1, hb2, ?_⟩
    simp only [make_decision, hl, hscan]

/-- Witness for C1: a snapshot with high fire risk (0.85) and sufficient
moisture (90 %) still decides `PRE_IRRIGATE` because a prediction starts in
20 hours; timing is `20 - 12 = 8` hours from epoch 0. -/
theorem c1_psps_window_forces_pre_irrigate_witness :
    ∃ h, scanPsps (0 : ℚ) [⟨some (TsStr.naive 20)⟩] = some h ∧ 0 < h ∧ h ≤ 36 ∧
      make_decision ⟨0, some [⟨some (TsStr.naive 20)⟩], some (17/20), some 90, some (1/10), none⟩
        = Except.ok ⟨RecommendationAction.PRE_IRRIGATE, 0 + (h - 12), true⟩ :=
  c1_psps_window_forces_pre_irrigate
    ⟨0, some [⟨some (TsStr.naive 20)⟩], some (17/20), some 90, some (1/10), none⟩
    [⟨some (TsStr.naive 20)⟩] rfl
    ⟨⟨some (TsStr.naive 20)⟩, List.mem_singleton.mpr rfl, 20, rfl, by norm_num, by norm_num⟩

/-- Whether a prediction's timestamp parses to a timezone-aware datetime (the
kind `_make_decision` always drops via the caught `TypeError`). -/
def isAwarePred (p : PspsPrediction) : Bool :=
  match p.predicted_start_time with
  | some (TsStr.aware _) => true
  | _ => false

/-- Dropping the timezone-aware predictions from the list does not change the
result of the PSPS scan. -/
theorem scanPsps_filter_aware (now : ℚ) (l : List PspsPrediction) :
    scanPsps now (l.filter (fun p => !isAwarePred p)) = scanPsps now l := by
  induction l with
  | nil => rfl
  | cons q rest ih =>
    by_cases ha : isAwarePred q = true
    · have hdrop : (q :: rest).filter (fun p => !isAwarePred p)
          = rest.filter (fun p => !isAwarePred p) := by
        simp [List.filter, ha]
      rw [hdrop, ih]
      cases hts : q.predicted_start_time with
      | none => simp [isAwarePred, hts] at ha
      | some ts =>
        cases ts with
        | naive t => simp [isAwarePred, hts] at ha
        | aware t => simp only [scanPsps, hts, hoursUntilNaiveNow]
        | malformed => simp only [scanPsps, hts, hoursUntilNaiveNow]
    · have hkeep : (q :: rest).filter (fun p => !isAwarePred p)
          = q :: rest.filter (fun p => !isAwarePred p) := by
        simp [List.filter, ha]
      rw [hkeep]
      cases hts : q.predicted_start_time with
      | none => simp only [scanPsps, hts]; exact ih
      | some ts =>
        cases hts' : hoursUntilNaiveNow now ts with
        | none => simp only [scanPsps, hts, hts']; exact ih
        | some h =>
          simp only [scanPsps, hts, hts']
          by_cases hw : 0 < h ∧ h ≤ 36
          · rw [if_pos hw, if_pos hw]
          · rw [if_neg hw, if_neg hw]; exact ih

/-- When the non-PSPS cascade completes, its action is never `PRE_IRRIGATE`
and it never raises the `psps_alert` flag. -/
theorem decideRest_no_preirrigate (s : DecisionInput) :
    ∀ r, decideRest s = Except.ok r →
      r.recommended_action ≠ RecommendationAction.PRE_IRRIGATE ∧ r.psps_alert = false := by
  intro r hr
  unfold decideRest at hr
  dsimp only at hr
  split_ifs at hr <;> simp only [Except.ok.injEq] at hr <;> subst hr <;> simp

/-- The only exception the cascade can raise is the NDVI `KeyError` of the
IRRIGATE reason construction. -/
theorem decideRest_error_is_ndvi (s : DecisionInput) :
    ∀ e, decideRest s = Except.error e → e = "KeyError: ndvi" := by
  intro e he
  unfold decideRest at he
  dsimp only at he
  split_ifs at he <;> simp only [Except.error.injEq] at he <;> exact he.symm

/-- The only exception the whole decision stage can raise is that same NDVI
`KeyError` (the PSPS branch returns before any formatting hazard). -/
theorem make_decision_error_is_ndvi (s : DecisionInput) :
    ∀ e, make_decision s = Except.error e → e = "KeyError: ndvi" := by
  intro e he
  cases hp : s.psps_predictions with
  | none =>
    simp only [make_decision, hp] at he
    exact decideRest_error_is_ndvi s e he
  | some l =>
    cases hs : scanPsps s.now l with
    | some h =>
      simp only [make_decision, hp, hs] at he
      injection he
    | none =>
      simp only [make_decision, hp, hs] at he
      exact decideRest_error_is_ndvi s e he

/-- C10: a prediction whose timestamp string carries a timezone offset
(parses tz-aware) never triggers `PRE_IRRIGATE` and never aborts the decision
stage: the tz-aware minus naive subtraction raises `TypeError`, which the
handler swallows for that prediction only, so the decision is the same as if
the aware predictions were absent; in particular, when every prediction is
tz-aware, evaluation falls through to the fire-risk / moisture / monitor
cascade, which never completes with `PRE_IRRIGATE` and never raises the
`psps_alert` flag (any exception it raises is the NDVI `KeyError`, a hazard
of the cascade itself — independent of the timestamps).  `make_decision` is a
total Lean function, so the stage is total over all well-formed and malformed
timestamp strings. -/
theorem c10_aware_predictions_fall_through (s : DecisionInput) (l : List PspsPrediction)
    (hl : s.psps_predictions = some l) :
    make_decision s
        = make_decision { s with psps_predictions := some (l.filter (fun p => !isAwarePred p)) }
      ∧ ((∀ p ∈ l, isAwarePred p = true) →
          make_decision s = decideRest s ∧
          (∀ r, make_decision s = Except.ok r →
            r.recommended_action ≠ RecommendationAction.PRE_IRRIGATE ∧ r.psps_alert = false)) := by
  have hrest : decideRest { s with
      psps_predictions := some (l.filter (fun p => !isAwarePred p)) } = decideRest s := rfl
  constructor
  · simp only [make_decision, hl, scanPsps_filter_aware, hrest]
  · intro hall
    have hfilter : l.filter (fun p => !isAwarePred p) = [] := by
      apply List.filter_eq_nil_iff.mpr
      intro p hp
      simp [hall p hp]
    have hscan : scanPsps s.now l = none := by
      rw [← scanPsps_filter_aware s.now l, hfilter]
      rfl
    have hmk : make_decision s = decideRest s := by
      simp only [make_decision, hl, hscan]
    refine ⟨hmk, ?_⟩
    intro r hr
    rw [hmk] at hr
    exact decideRest_no_preirrigate s r hr

/-- Witness for C10: a single prediction with a trailing-`Z` timestamp 20
hours ahead is ignored and the snapshot (moisture 25 %) falls through to the
IRRIGATE rule. -/
theorem c10_aware_predictions_fall_through_witness :
    make_decision ⟨0, some [⟨some (TsStr.aware 20)⟩], some (1/10), some 25, some (7/10), none⟩
        = decideRest ⟨0, some [⟨some (TsStr.aware 20)⟩], some (1/10), some 25, some (7/10), none⟩ ∧
      (∀ r, make_decision ⟨0, some [⟨some (TsStr.aware 20)⟩], some (1/10), some 25,
          some (7/10), none⟩ = Except.ok r →
        r.recommended_action ≠ RecommendationAction.PRE_IRRIGATE ∧ r.psps_alert = false) :=
  (c10_aware_predictions_fall_through
    ⟨0, some [⟨some (TsStr.aware 20)⟩], some (1/10), some 25, some (7/10), none⟩
    [⟨some (TsStr.aware 20)⟩] rfl).2
    (by intro p hp; rw [List.mem_singleton.mp hp]; rfl)

/-- C8: for every completed decision, a `DELAY` action carries
`fire_risk_reduction_percent = min 15 (fire_risk_score * 20)` and
`water_saved_liters = 5000`, while every other action carries `(0, 0)`; and
the Scenario-B snapshot (moisture 55 %, maximum zone risk score 0.85, no
qualifying PSPS) decides `DELAY` with the reduction capped at 15 and 5000
liters saved. -/
theorem c8_delay_impact :
    (∀ (a : RecommendationAction) (r : ℚ),
        (a = RecommendationAction.DELAY →
          calculate_impact a (some r) = (min 15 (r * 20), 5000)) ∧
        (a ≠ RecommendationAction.DELAY → calculate_impact a (some r) = (0, 0)))
    ∧ (make_decision ⟨0, none, some (calculate_fire_risk_score (some ⟨some [⟨some (17/20)⟩]⟩)),
          some 55, some (calculate_drought_risk_score (some 55) none), none⟩
        = Except.ok ⟨RecommendationAction.DELAY, 24, false⟩
      ∧ calculate_impact RecommendationAction.DELAY
          (some (calculate_fire_risk_score (some ⟨some [⟨some (17/20)⟩]⟩))) = (15, 5000)) := by
  refine ⟨fun a r => ⟨fun ha => ?_, fun ha => ?_⟩, ?_, ?_⟩
  · subst ha
    by_cases hr : r = 0
    · subst hr; norm_num [calculate_impact]
    · simp [calculate_impact, hr]
  · simp [calculate_impact, ha]
  · norm_num [make_decision, decideRest, calculate_fire_risk_score,
      calculate_drought_risk_score]
  · norm_num [calculate_impact, calculate_fire_risk_score]

/-- Witness for C8: the general clause instantiated at `DELAY` with fire-risk
score 0.85. -/
theorem c8_delay_impact_witness :
    calculate_impact RecommendationAction.DELAY (some (17/20)) = (min 15 ((17/20) * 20), 5000) :=
  (c8_delay_impact.1 RecommendationAction.DELAY (17/20)).1 rfl

/-- Round half to even on an exact rational, which is what Python's `round`
computes whenever its float argument represents the value exactly.  (The
concrete inputs used in the theorems below are never half-way ties, so the
tie-breaking rule is immaterial there.) -/
def roundHalfEven (x : ℚ) : ℤ :=
  let n := ⌊x⌋
  let r := x - n
  if r < 1/2 then n
  else if 1/2 < r then n + 1
  else if n % 2 = 0 then n else n + 1

/-- Python's `round(x, 1)`. -/
def round1 (x : ℚ) : ℚ := (roundHalfEven (x * 10) : ℚ) / 10

/-- `MetricsService._calculate_drought_stress_score`, as a function of the
moisture of the most recent sensor reading (`none` = no reading exists).
The moisture branches are returned through `round(stress_score, 1)`; the
no-reading default 50.0 is returned unrounded. -/
def calculate_drought_stress_score (latest_moisture : Option ℚ) : ℚ :=
  match latest_moisture with
  | none => 50
  | some m =>
    let stress :=
      if 40 ≤ m then max 0 (30 - (m - 40) * (1/2))
      else if 30 ≤ m then 30 + (40 - m) * 2
      else min 100 (70 + (30 - m) * (3/2))
    round1 stress

/-- Modelled from the spec: the drought-stress formula exactly as the claim
states it, without the implementation's one-decimal rounding.  Used only to
compare the claim's words against `calculate_drought_stress_score`. -/
def claimed_drought_stress_score (latest_moisture : Option ℚ) : ℚ :=
  match latest_moisture with
  | none => 50
  | some m =>
    if 40 ≤ m then max 0 (30 - (m - 40) * (1/2))
    else if 30 ≤ m then 30 + (40 - m) * 2
    else min 100 (70 + (30 - m) * (3/2))

/-- `roundHalfEven` of a value in `[0, 1000]` stays in `[0, 1000]`. -/
theorem roundHalfEven_bounds (y : ℚ) (h0 : 0 ≤ y) (h1 : y ≤ 1000) :
    0 ≤ roundHalfEven y ∧ roundHalfEven y ≤ 1000 := by
  have hfl : (0 : ℤ) ≤ ⌊y⌋ := Int.le_floor.mpr (by exact_mod_cast h0)
  have hfu : (⌊y⌋ : ℚ) ≤ y := Int.floor_le y
  unfold roundHalfEven
  dsimp only
  split_ifs with hr1 hr2 hpar
  · exact ⟨hfl, by exact_mod_cast hfu.trans h1⟩
  · have hlt : (⌊y⌋ : ℚ) ≤ y - 1/2 := by
      have := le_of_not_lt hr1
      linarith
    have : (⌊y⌋ : ℚ) < 1000 := by linarith
    have hz : ⌊y⌋ < 1000 := by exact_mod_cast this
    exact ⟨by omega, by omega⟩
  · exact ⟨hfl, by exact_mod_cast hfu.trans h1⟩
  · have hlt : (⌊y⌋ : ℚ) ≤ y - 1/2 := by
      have := le_of_not_lt hr1
      linarith
    have : (⌊y⌋ : ℚ) < 1000 := by linarith
    have hz : ⌊y⌋ < 1000 := by exact_mod_cast this
    exact ⟨by omega, by omega⟩

/-- C9 counterexample: at moisture 40.03 % the code returns 30.0 (the rounded
value), while the claim's formula `max(0, 30 − (moisture − 40) × 0.5)` gives
29.985, so the claimed equality fails. -/
theorem c9_stress_score_counterexample :
    calculate_drought_stress_score (some (4003/100)) = 30
    ∧ claimed_drought_stress_score (some (4003/100)) = 5997/200
    ∧ calculate_drought_stress_score (some (4003/100))
        ≠ claimed_drought_stress_score (some (4003/100)) := by
  have hfloor : ⌊(5997/200 : ℚ) * 10⌋ = 299 := by
    rw [Int.floor_eq_iff]
    norm_num
  have hcode : calculate_drought_stress_score (some (4003/100)) = 30 := by
    unfold calculate_drought_stress_score
    dsimp only
    rw [if_pos (by norm_num : (40:ℚ) ≤ 4003/100)]
    have hmax : max (0:ℚ) (30 - (4003/100 - 40) * (1/2)) = 5997/200 := by
      rw [max_eq_right] <;> norm_num
    rw [hmax]
    unfold round1 roundHalfEven
    dsimp only
    rw [hfloor]
    norm_num
  have hclaim : claimed_drought_stress_score (some (4003/100)) = 5997/200 := by
    unfold claimed_drought_stress_score
    dsimp only
    rw [if_pos (by norm_num : (40:ℚ) ≤ 4003/100)]
    rw [max_eq_right] <;> norm_num
  refine ⟨hcode, hclaim, ?_⟩
  rw [hcode, hclaim]
  norm_num

/-- C9 amended: the drought-stress score equals the claim's branch formulas
*rounded to one decimal place* (the no-reading default 50 is exact), and in
all cases the result lies in `[0, 100]`. -/
theorem c9_stress_score_amended :
    (∀ m : ℚ, 40 ≤ m →
        calculate_drought_stress_score (some m) = round1 (max 0 (30 - (m - 40) * (1/2))))
    ∧ (∀ m : ℚ, 30 ≤ m → m < 40 →
        calculate_drought_stress_score (some m) = round1 (30 + (40 - m) * 2))
    ∧ (∀ m : ℚ, m < 30 →
        calculate_drought_stress_score (some m) = round1 (min 100 (70 + (30 - m) * (3/2))))
    ∧ calculate_drought_stress_score none = 50
    ∧ (∀ lm : Option ℚ, 0 ≤ calculate_drought_stress_score lm
        ∧ calculate_drought_stress_score lm ≤ 100) := by
  have hround : ∀ x : ℚ, 0 ≤ x → x ≤ 100 → 0 ≤ round1 x ∧ round1 x ≤ 100 := by
    intro x hx0 hx1
    have hb := roundHalfEven_bounds (x * 10) (by linarith) (by linarith)
    constructor
    · unfold round1
      have : (0 : ℚ) ≤ (roundHalfEven (x * 10) : ℚ) := by exact_mod_cast hb.1
      linarith
    · unfold round1
      have : (roundHalfEven (x * 10) : ℚ) ≤ 1000 := by exact_mod_cast hb.2
      linarith
  refine ⟨?_, ?_, ?_, rfl, ?_⟩
  · intro m hm
    unfold calculate_drought_stress_score
    dsimp only
    rw [if_pos hm]
  · intro m hm1 hm2
    unfold calculate_drought_stress_score
    dsimp only
    rw [if_neg (by linarith), if_pos hm1]
  · intro m hm
    unfold calculate_drought_stress_score
    dsimp only
    rw [if_neg (by linarith), if_neg (by linarith)]
  · intro lm
    cases lm with
    | none => norm_num [calculate_drought_stress_score]
    | some m =>
      unfold calculate_drought_stress_score
      dsimp only
      split_ifs with h1 h2
      · exact hround _ (le_max_left 0 _)
          (max_le (by norm_num) (by nlinarith))
      · exact hround _ (by nlinarith) (by nlinarith)
      · exact hround _ (le_min (by norm_num) (by nlinarith)) (min_le_left 100 _)

/-- Witness for C9's amended theorem: moisture 45 % gives `round1 27.5 = 27.5`
(exactly representable, so rounding is the identity here). -/
theorem c9_stress_score_amended_witness :
    calculate_drought_stress_score (some 45) = round1 (max 0 (30 - ((45:ℚ) - 40) * (1/2))) :=
  c9_stress_score_amended.1 45 (by norm_num)

/-- `WATER_COST_PER_LITER_USD` from `app/services/metrics.py`: the fixed
California-average price. -/
def WATER_COST_PER_LITER_USD : ℚ := 1/1000

/-- `MetricsService._calculate_cost_saved`: always multiplies by the fixed
module constant; it receives no preference input. -/
def calculate_cost_saved (water_saved_liters : ℚ) : ℚ :=
  water_saved_liters * WATER_COST_PER_LITER_USD

/-- Modelled from the spec: the claimed cost computation, with the owner's
water-cost preference overriding the fixed default when present.  Used only
to compare the claim against `calculate_cost_saved`. -/
def claimed_cost_saved (pref_water_cost : Option ℚ) (water_saved : ℚ) : ℚ :=
  water_saved * pref_water_cost.getD WATER_COST_PER_LITER_USD

/-- Parameter names of `MetricsService.calculate_water_saved(db, field_id,
period)` in `app/services/metrics.py`. -/
def calculate_water_saved_params : List String := ["db", "field_id", "period"]

/-- Argument names supplied by the call site in
`WaterEfficiencyAgent.process`: `MetricsService.calculate_water_saved(db,
state.field_id, period="season", water_cost_per_liter_usd=water_cost)`
(positional arguments written under the parameter names they bind). -/
def water_efficiency_call_args : List String :=
  ["db", "field_id", "period", "water_cost_per_liter_usd"]

/-- C3: `cost_saved` is `water_saved` times the *fixed* module price for every
input — the owner's preference never reaches the computation.  At the failing
input (preference $0.002/L, 1000 L saved) the claim's value is 2 while the
code computes 1; moreover, the keyword `water_cost_per_liter_usd` that
`WaterEfficiencyAgent.process` passes is not a parameter of
`calculate_water_saved`, so in Python that call raises `TypeError`. -/
theorem c3_cost_saved_ignores_preference :
    (∀ w : ℚ, calculate_cost_saved w = w * (1/1000))
    ∧ calculate_cost_saved 1000 = 1
    ∧ claimed_cost_saved (some (1/500)) 1000 = 2
    ∧ calculate_cost_saved 1000 ≠ claimed_cost_saved (some (1/500)) 1000
    ∧ "water_cost_per_liter_usd" ∈ water_efficiency_call_args
    ∧ "water_cost_per_liter_usd" ∉ calculate_water_saved_params := by
  refine ⟨fun w => rfl, by norm_num [calculate_cost_saved, WATER_COST_PER_LITER_USD],
    by norm_num [claimed_cost_saved, Option.getD],
    by norm_num [calculate_cost_saved, claimed_cost_saved, Option.getD, WATER_COST_PER_LITER_USD],
    by simp [water_efficiency_call_args],
    by simp [calculate_water_saved_params]⟩

/-- The slice of the `UserPreferences` row the verified components read, with
the database column defaults. -/
structure UserPreferencesRec where
  psps_alerts_enabled : Bool := true
  water_milestone_alerts_enabled : Bool := true
  water_cost_per_liter_usd : Option ℚ := none
  water_savings_milestone_liters : ℚ := 1000
  psps_pre_irrigation_hours : ℚ := 36
  psps_auto_pre_irrigate : Bool := false
deriving DecidableEq, Repr

/-- The guard at the top of `_check_milestones`: alerts are skipped only when
a preferences row exists and has the toggle off (no row means "enabled"). -/
def milestone_alerts_disabled (prefs : Option UserPreferencesRec) : Bool :=
  match prefs with
  | some p => !p.water_milestone_alerts_enabled
  | none => false

/-- `milestone_threshold` of `_check_milestones`: the owner's custom value
when the row exists and the (integer) column is truthy, else the 1000 L
default. -/
def milestone_threshold (prefs : Option UserPreferencesRec) : ℚ :=
  match prefs with
  | some p =>
    if p.water_savings_milestone_liters ≠ 0 then p.water_savings_milestone_liters else 1000
  | none => 1000

/-- `last_milestone_alerted is None or last_milestone_alerted < v`. -/
def newly_crossed (last : Option ℚ) (v : ℚ) : Bool :=
  match last with
  | none => true
  | some lm => decide (lm < v)

/-- `WaterEfficiencyAgent._check_milestones`, reduced to the milestone value
it alerts (`none` = no alert).  The if/elif ladder checks 25000, 10000, 5000
and then the custom-or-1000 threshold, in that order. -/
def check_milestones (prefs : Option UserPreferencesRec) (water_saved : ℚ)
    (last_milestone_alerted : Option ℚ) : Option ℚ :=
  if milestone_alerts_disabled prefs then none
  else if 25000 ≤ water_saved ∧ newly_crossed last_milestone_alerted 25000 = true then
    some 25000
  else if 10000 ≤ water_saved ∧ newly_crossed last_milestone_alerted 10000 = true then
    some 10000
  else if 5000 ≤ water_saved ∧ newly_crossed last_milestone_alerted 5000 = true then
    some 5000
  else if milestone_threshold prefs ≤ water_saved
      ∧ newly_crossed last_milestone_alerted (milestone_threshold prefs) = true then
    some (milestone_threshold prefs)
  else none

/-- `state.last_milestone_alerted` after one `_check_milestones` call: updated
only when an alert was created. -/
def next_last_milestone (last : Option ℚ) (alerted : Option ℚ) : Option ℚ :=
  match alerted with
  | some v => some v
  | none => last

/-- One invocation of `WaterEfficiencyAgent.process`, as reached from
`calculate_for_field`, the scheduler or the API: a fresh
`WaterEfficiencyAgentState` (so `last_milestone_alerted = None`), then the
call `MetricsService.calculate_water_saved(db, state.field_id,
period="season", water_cost_per_liter_usd=water_cost)`.  Python binds a
call's keywords against the callee's parameter names before running it; the
guard below performs that binding check against the names taken from the
source, and since `water_cost_per_liter_usd` is not among
`calculate_water_saved`'s parameters it fails, the call raises `TypeError`
inside the `try`, `process` stores the error and returns —
`_check_milestones` is never reached.  The `ok` branch is what would run had
the keywords matched: the milestone check against the fresh state's `None`
dedup marker. -/
def water_efficiency_process (prefs : Option UserPreferencesRec) (water_saved : ℚ) :
    Except String (Option ℚ) :=
  if water_efficiency_call_args.all (fun a => calculate_water_saved_params.contains a) then
    Except.ok (check_milestones prefs water_saved none)
  else
    Except.error "TypeError: unexpected keyword argument water_cost_per_liter_usd"

/-- Successive invocations of the Water-Efficiency engine on one field, each
going through `process`. -/
def engine_invocations (prefs : Option UserPreferencesRec) (saved_values : List ℚ) :
    List (Except String (Option ℚ)) :=
  saved_values.map (fun w => water_efficiency_process prefs w)

/-- The WATER_SAVED_MILESTONE alerts a sequence of invocation results
actually emits. -/
def emitted_milestones (results : List (Except String (Option ℚ))) : List ℚ :=
  results.filterMap (fun r =>
    match r with
    | Except.ok (some v) => some v
    | _ => none)

/-- A run that threads one state object through repeated direct
`_check_milestones` calls (the dedup the `last_milestone_alerted` field
supports *within* a single state's lifetime). -/
def threaded_run (prefs : Option UserPreferencesRec) :
    Option ℚ → List ℚ → List (Option ℚ)
  | _, [] => []
  | last, w :: ws =>
    let a := check_milestones prefs w last
    a :: threaded_run prefs (next_last_milestone last a) ws

/-- Any alerted milestone exceeds the previous `last_milestone_alerted` and
is at most the current water-saved value, and is one of the ladder values. -/
theorem check_milestones_spec (prefs : Option UserPreferencesRec) (w : ℚ)
    (last : Option ℚ) (v : ℚ) (hv : check_milestones prefs w last = some v) :
    v ≤ w ∧ (∀ lm, last = some lm → lm < v)
      ∧ (v = 25000 ∨ v = 10000 ∨ v = 5000 ∨ v = milestone_threshold prefs) := by
  unfold check_milestones at hv
  split_ifs at hv with hd h1 h2 h3 h4
  · cases hv
    refine ⟨h1.1, ?_, Or.inl rfl⟩
    intro lm hlm
    have := h1.2
    rw [hlm] at this
    simpa [newly_crossed] using this
  · cases hv
    refine ⟨h2.1, ?_, Or.inr (Or.inl rfl)⟩
    intro lm hlm
    have := h2.2
    rw [hlm] at this
    simpa [newly_crossed] using this
  · cases hv
    refine ⟨h3.1, ?_, Or.inr (Or.inr (Or.inl rfl))⟩
    intro lm hlm
    have := h3.2
    rw [hlm] at this
    simpa [newly_crossed] using this
  · cases hv
    refine ⟨h4.1, ?_, Or.inr (Or.inr (Or.inr rfl))⟩
    intro lm hlm
    have := h4.2
    rw [hlm] at this
    simpa [newly_crossed] using this

/-- Every milestone alerted later in a threaded run is strictly above the
`last_milestone_alerted` value the run started from. -/
theorem threaded_run_gt_start (prefs : Option UserPreferencesRec) :
    ∀ (ws : List ℚ) (lm v : ℚ),
      v ∈ (threaded_run prefs (some lm) ws).filterMap id → lm < v := by
  intro ws
  induction ws with
  | nil => intro lm v hv; simp [threaded_run] at hv
  | cons w rest ih =>
    intro lm v hv
    simp only [threaded_run] at hv
    cases ha : check_milestones prefs w (some lm) with
    | none =>
      rw [ha] at hv
      simp only [List.filterMap_cons, id] at hv
      exact ih lm v (by simpa [next_last_milestone, ha] using hv)
    | some u =>
      rw [ha] at hv
      simp only [List.filterMap_cons, id, List.mem_cons] at hv
      rcases hv with rfl | hv
      · exact ((check_milestones_spec prefs w (some lm) v ha).2.1 lm rfl)
      · have hu : lm < u := (check_milestones_spec prefs w (some lm) u ha).2.1 lm rfl
        have : u < v := ih u v (by simpa [next_last_milestone, ha] using hv)
        linarith

/-- Within one threaded run the alerted milestones are strictly increasing,
so no tier is ever alerted twice while the same state object lives. -/
theorem threaded_run_strict_mono (prefs : Option UserPreferencesRec) :
    ∀ (ws : List ℚ) (last : Option ℚ),
      ((threaded_run prefs last ws).filterMap id).Pairwise (· < ·) := by
  intro ws
  induction ws with
  | nil => intro last; simp [threaded_run]
  | cons w rest ih =>
    intro last
    simp only [threaded_run]
    cases ha : check_milestones prefs w last with
    | none =>
      simp only [List.filterMap_cons, id]
      exact ih (next_last_milestone last none)
    | some u =>
      simp only [List.filterMap_cons, id]
      refine List.Pairwise.cons ?_ (ih (next_last_milestone last (some u)))
      intro v hv
      exact threaded_run_gt_start prefs rest u v
        (by simpa [next_last_milestone] using hv)

/-- C2: the claimed milestone behaviour never happens — every invocation of
the Water-Efficiency engine raises `TypeError` at the
`calculate_water_saved(..., water_cost_per_liter_usd=...)` call before
`_check_milestones` can run, so the engine emits *zero*
WATER_SAVED_MILESTONE alerts (first two conjuncts; the spec's Scenario E and
the repo's own milestone tests expect alerts to be created through exactly
this entry point).  The remaining conjuncts show the routine itself: had the
call succeeded, `_check_milestones` would run against the fresh state of
each invocation (`last_milestone_alerted = None`) and alert the 1000 L tier
at saved 1200 L and again at 1300 L — no cross-invocation dedup — while
threading one state object through both calls alerts the tier exactly once,
which is the behaviour the claim describes. -/
theorem c2_milestones_never_reached :
    (∀ (prefs : Option UserPreferencesRec) (w : ℚ),
        water_efficiency_process prefs w
          = Except.error "TypeError: unexpected keyword argument water_cost_per_liter_usd")
    ∧ emitted_milestones (engine_invocations none [1200, 1300]) = []
    ∧ check_milestones none 1200 none = some 1000
    ∧ check_milestones none 1300 none = some 1000
    ∧ threaded_run none none [1200, 1300] = [some 1000, none] := by
  have hproc : ∀ (prefs : Option UserPreferencesRec) (w : ℚ),
      water_efficiency_process prefs w
        = Except.error "TypeError: unexpected keyword argument water_cost_per_liter_usd" := by
    intro prefs w
    unfold water_efficiency_process
    rw [if_neg]
    decide
  refine ⟨hproc, ?_, ?_, ?_, ?_⟩
  · simp [emitted_milestones, engine_invocations, hproc]
  · norm_num [check_milestones, milestone_alerts_disabled, milestone_threshold,
      newly_crossed]
  · norm_num [check_milestones, milestone_alerts_disabled, milestone_threshold,
      newly_crossed]
  · norm_num [threaded_run, next_last_milestone, check_milestones,
      milestone_alerts_disabled, milestone_threshold, newly_crossed]

/-- Witness for C2's theorem: one concrete invocation at 1200 L saved with no
preferences row errors before the milestone check. -/
theorem c2_milestones_never_reached_witness :
    water_efficiency_process none 1200
      = Except.error "TypeError: unexpected keyword argument water_cost_per_liter_usd" :=
  c2_milestones_never_reached.1 none 1200

/-- One `shutoff_info` dict as produced by the PSPS service and consumed by
`PSPSAlertAgent` (`id`, `status`, optional `predicted_start_time`). -/
structure ShutoffInfo where
  id : String
  status : String
  predicted_start_time : Option TsStr := none
deriving DecidableEq, Repr

/-- `PSPSService.is_new_event`: membership test against the process-local
`_seen_event_ids` set, adding the id when it was new.  The set is modelled as
a duplicate-free-enough list (membership is all that matters). -/
def is_new_event (seen : List String) (event_id : String) : Bool × List String :=
  if event_id ∈ seen then (false, seen) else (true, event_id :: seen)

/-- The novelty loop of `_find_affected_fields`: for each (field, shutoff)
pair in order, shutoffs whose id passes `is_new_event` are appended to
`state.new_events`. -/
def collect_new_events (seen : List String) :
    List ShutoffInfo → List ShutoffInfo × List String
  | [] => ([], seen)
  | sh :: rest =>
    let step := is_new_event seen sh.id
    let tail := collect_new_events step.2 rest
    (if step.1 then sh :: tail.1 else tail.1, tail.2)

/-- `preferences and not preferences.psps_alerts_enabled` gate of
`_generate_alerts` (no row means the alert is created). -/
def psps_alerts_enabled_for (prefs : Option UserPreferencesRec) : Bool :=
  match prefs with
  | some p => p.psps_alerts_enabled
  | none => true

/-- The alert loop of `_generate_alerts`: one alert per (field, shutoff) pair
whose event id is among the new events and whose owner has PSPS alerts
enabled (the templated messages are never empty, so `create_alert` cannot
raise). -/
def generate_alerts_count (pairs : List (Nat × ShutoffInfo))
    (new_events : List ShutoffInfo) (prefs : Nat → Option UserPreferencesRec) : Nat :=
  (pairs.filter (fun fp =>
    decide (fp.2.id ∈ new_events.map (fun e => e.id))
      && psps_alerts_enabled_for (prefs fp.1))).length

/-- Result of one PSPS sweep (`run_psps_sweep` contract of the spec). -/
structure SweepResult where
  alerts_created : Nat
  new_events : List ShutoffInfo
  seen : List String
deriving DecidableEq, Repr

/-- One sweep of `PSPSAlertAgent.process` over its affected (field, shutoff)
pairs: novelty detection through the registry, then alert generation for the
novel events. -/
def run_psps_sweep (seen : List String) (pairs : List (Nat × ShutoffInfo))
    (prefs : Nat → Option UserPreferencesRec) : SweepResult :=
  let collected := collect_new_events seen (pairs.map (fun fp => fp.2))
  { alerts_created := generate_alerts_count pairs collected.1 prefs,
    new_events := collected.1,
    seen := collected.2 }

/-- The registry only grows across a novelty pass. -/
theorem collect_new_events_seen_mono (l : List ShutoffInfo) :
    ∀ (seen : List String) (s : String), s ∈ seen → s ∈ (collect_new_events seen l).2 := by
  induction l with
  | nil => intro seen s hs; exact hs
  | cons sh rest ih =>
    intro seen s hs
    unfold collect_new_events is_new_event
    dsimp only
    split_ifs with hmem
    · exact ih seen s hs
    · exact ih (sh.id :: seen) s (List.mem_cons_of_mem _ hs)

/-- After a novelty pass every processed event id is in the registry. -/
theorem collect_new_events_marks_all (l : List ShutoffInfo) :
    ∀ (seen : List String) (sh : ShutoffInfo), sh ∈ l →
      sh.id ∈ (collect_new_events seen l).2 := by
  induction l with
  | nil => intro seen sh hsh; cases hsh
  | cons q rest ih =>
    intro seen sh hsh
    rcases List.mem_cons.mp hsh with rfl | hmem
    · unfold collect_new_events is_new_event
      dsimp only
      split_ifs with hseen
      · exact collect_new_events_seen_mono rest seen sh.id hseen
      · exact collect_new_events_seen_mono rest (sh.id :: seen) sh.id (List.mem_cons_self _ _)
    · unfold collect_new_events is_new_event
      dsimp only
      split_ifs with hseen
      · exact ih seen sh hmem
      · exact ih (q.id :: seen) sh hmem

/-- A pass over events that are all already in the registry yields no new
events and leaves the registry unchanged. -/
theorem collect_new_events_all_seen (l : List ShutoffInfo) :
    ∀ (seen : List String), (∀ sh ∈ l, sh.id ∈ seen) →
      collect_new_events seen l = ([], seen) := by
  induction l with
  | nil => intro seen _; rfl
  | cons q rest ih =>
    intro seen hall
    unfold collect_new_events is_new_event
    dsimp only
    rw [if_pos (hall q (List.mem_cons_self _ _))]
    dsimp only
    rw [ih seen (fun sh hsh => hall sh (List.mem_cons_of_mem _ hsh))]
    simp

/-- C4: running the sweep twice in immediate succession within one process on
unchanged upstream data alerts only on the first run — the second run finds
no novel event (every id is already in the `SeenEventRegistry`) and creates
zero alerts, for any field set and any preference assignment. -/
theorem c4_second_sweep_creates_nothing (seen : List String)
    (pairs : List (Nat × ShutoffInfo)) (prefs : Nat → Option UserPreferencesRec) :
    (run_psps_sweep (run_psps_sweep seen pairs prefs).seen pairs prefs).new_events = []
    ∧ (run_psps_sweep (run_psps_sweep seen pairs prefs).seen pairs prefs).alerts_created = 0 := by
  have hall : ∀ sh ∈ pairs.map (fun fp => fp.2),
      sh.id ∈ (run_psps_sweep seen pairs prefs).seen := by
    intro sh hsh
    exact collect_new_events_marks_all (pairs.map (fun fp => fp.2)) seen sh hsh
  have hcollect := collect_new_events_all_seen (pairs.map (fun fp => fp.2))
    (run_psps_sweep seen pairs prefs).seen hall
  simp only [run_psps_sweep] at hcollect
  constructor
  · simp only [run_psps_sweep]
    rw [hcollect]
  · simp only [run_psps_sweep]
    rw [hcollect]
    simp [generate_alerts_count]

/-- Witness for C4: a concrete sweep over two fields sharing one predicted
event creates alerts on the first run and none on the second. -/
theorem c4_second_sweep_creates_nothing_witness :
    (run_psps_sweep [] [(1, ⟨"evt-1", "PREDICTED", none⟩), (2, ⟨"evt-1", "PREDICTED", none⟩)]
        (fun _ => none)).alerts_created = 2
    ∧ (run_psps_sweep
        (run_psps_sweep [] [(1, ⟨"evt-1", "PREDICTED", none⟩), (2, ⟨"evt-1", "PREDICTED", none⟩)]
          (fun _ => none)).seen
        [(1, ⟨"evt-1", "PREDICTED", none⟩), (2, ⟨"evt-1", "PREDICTED", none⟩)]
        (fun _ => none)).alerts_created = 0 := by
  constructor
  · norm_num [run_psps_sweep, collect_new_events, is_new_event, generate_alerts_count,
      psps_alerts_enabled_for, List.filter]
  · exact (c4_second_sweep_creates_nothing []
      [(1, ⟨"evt-1", "PREDICTED", none⟩), (2, ⟨"evt-1", "PREDICTED", none⟩)] (fun _ => none)).2

/-- The mutable slice of an `Alert` row (`acknowledge` is its only allowed
mutation). -/
structure AlertRow where
  message : String
  acknowledged : Bool
  acknowledged_at : Option ℚ
deriving DecidableEq, Repr

/-- The mutable slice of a `Recommendation` row for the accept transition. -/
structure RecommendationRow where
  accepted : Bool
  accepted_at : Option ℚ
deriving DecidableEq, Repr

/-- Lookup of a row by primary key (`scalar_one_or_none` of the id query). -/
def store_lookup {β : Type} (store : List (Nat × β)) (i : Nat) : Option β :=
  match store with
  | [] => none
  | e :: rest => if e.1 = i then some e.2 else store_lookup rest i

/-- In-place update of the row with the given id (the ORM mutation plus
flush). -/
def store_update {β : Type} (store : List (Nat × β)) (i : Nat) (b : β) :
    List (Nat × β) :=
  store.map (fun e => if e.1 = i then (i, b) else e)

/-- `AlertService.acknowledge_alert`: not-found returns `none`; an already
acknowledged alert is returned unchanged (no-op success); otherwise the row
is mutated once with the current instant. -/
def acknowledge_alert (store : List (Nat × AlertRow)) (alert_id : Nat) (now : ℚ) :
    List (Nat × AlertRow) × Option AlertRow :=
  match store_lookup store alert_id with
  | none => (store, none)
  | some a =>
    if a.acknowledged then (store, some a)
    else
      let a' := { a with acknowledged := true, acknowledged_at := some now }
      (store_update store alert_id a', some a')

/-- `RecommendationService.accept_recommendation`, same no-op-on-repeat
shape. -/
def accept_recommendation (store : List (Nat × RecommendationRow)) (rec_id : Nat)
    (now : ℚ) : List (Nat × RecommendationRow) × Option RecommendationRow :=
  match store_lookup store rec_id with
  | none => (store, none)
  | some r =>
    if r.accepted then (store, some r)
    else
      let r' := { r with accepted := true, accepted_at := some now }
      (store_update store rec_id r', some r')

/-- Updating the looked-up id makes the subsequent lookup return the new
row. -/
theorem lookup_store_update {β : Type} (store : List (Nat × β)) (i : Nat)
    (a b : β) (h : store_lookup store i = some a) :
    store_lookup (store_update store i b) i = some b := by
  induction store with
  | nil => cases h
  | cons e rest ih =>
    by_cases he : e.1 = i
    · simp only [store_update, List.map_cons, if_pos he, store_lookup, if_pos rfl]
      simp
    · simp only [store_lookup, if_neg he] at h
      simp only [store_update, List.map_cons, if_neg he, store_lookup, if_neg he]
      exact ih h

/-- C6: acknowledging an alert twice yields the same final store as
acknowledging it once and the second call succeeds, returning the alert with
`acknowledged` still true and `acknowledged_at` unchanged; accepting a
recommendation twice is idempotent in the same way. -/
theorem c6_ack_accept_idempotent :
    (∀ (store : List (Nat × AlertRow)) (i : Nat) (t1 t2 : ℚ) (a : AlertRow),
      store_lookup store i = some a →
        acknowledge_alert (acknowledge_alert store i t1).1 i t2
            = acknowledge_alert store i t1
        ∧ ∃ a', (acknowledge_alert store i t1).2 = some a' ∧ a'.acknowledged = true)
    ∧ (∀ (store : List (Nat × RecommendationRow)) (i : Nat) (t1 t2 : ℚ)
        (r : RecommendationRow),
      store_lookup store i = some r →
        accept_recommendation (accept_recommendation store i t1).1 i t2
            = accept_recommendation store i t1
        ∧ ∃ r', (accept_recommendation store i t1).2 = some r' ∧ r'.accepted = true) := by
  constructor
  · intro store i t1 t2 a h
    by_cases hack : a.acknowledged
    · have h1 : acknowledge_alert store i t1 = (store, some a) := by
        simp only [acknowledge_alert, h, if_pos hack]
      rw [h1]
      refine ⟨?_, a, by simp [h1], hack⟩
      simp only [acknowledge_alert, h, if_pos hack]
    · have h1 : acknowledge_alert store i t1
          = (store_update store i { a with acknowledged := true, acknowledged_at := some t1 },
             some { a with acknowledged := true, acknowledged_at := some t1 }) := by
        simp only [acknowledge_alert, h, if_neg hack]
      rw [h1]
      have h2 := lookup_store_update store i a
        { a with acknowledged := true, acknowledged_at := some t1 } h
      refine ⟨?_, { a with acknowledged := true, acknowledged_at := some t1 }, rfl, rfl⟩
      simp only [acknowledge_alert, h2, if_pos]
  · intro store i t1 t2 r h
    by_cases hacc : r.accepted
    · have h1 : accept_recommendation store i t1 = (store, some r) := by
        simp only [accept_recommendation, h, if_pos hacc]
      rw [h1]
      refine ⟨?_, r, by simp [h1], hacc⟩
      simp only [accept_recommendation, h, if_pos hacc]
    · have h1 : accept_recommendation store i t1
          = (store_update store i { r with accepted := true, accepted_at := some t1 },
             some { r with accepted := true, accepted_at := some t1 }) := by
        simp only [accept_recommendation, h, if_neg hacc]
      rw [h1]
      have h2 := lookup_store_update store i r
        { r with accepted := true, accepted_at := some t1 } h
      refine ⟨?_, { r with accepted := true, accepted_at := some t1 }, rfl, rfl⟩
      simp only [accept_recommendation, h2, if_pos]

/-- Witness for C6: a one-alert store acknowledged at t=5 then re-acknowledged
at t=9 keeps the t=5 state. -/
theorem c6_ack_accept_idempotent_witness :
    acknowledge_alert (acknowledge_alert [(7, ⟨"psps", false, none⟩)] 7 5).1 7 9
        = acknowledge_alert [(7, ⟨"psps", false, none⟩)] 7 5
    ∧ ∃ a', (acknowledge_alert [(7, ⟨"psps", false, none⟩)] 7 5).2 = some a'
        ∧ a'.acknowledged = true :=
  c6_ack_accept_idempotent.1 [(7, ⟨"psps", false, none⟩)] 7 5 9 ⟨"psps", false, none⟩ rfl

/-- `AgentType` tags of `app/models/recommendation.py`. -/
inductive AgentTag where
  | fire_adaptive_irrigation
  | psps_anticipation
  | water_efficiency
deriving DecidableEq, Repr

/-- The columns of a persisted `Recommendation` row that
`_create_pre_irrigation_recommendation` reads or writes, plus a ghost
`source_event` field recording which shutoff event caused the row.  The ghost
field exists only so the claim "for that exact event" can be stated: the real
table stores no event identifier and the embedded code never reads it. -/
structure RecEntry where
  field_id : Nat
  agent_type : AgentTag
  action : RecommendationAction
  psps_alert : Bool
  created_at : ℚ
  confidence : ℚ
  recommended_timing : ℚ
  source_event : String
deriving DecidableEq, Repr

/-- The filter of the `existing_query`: field, agent, action and psps flag —
and nothing about the event. -/
def matches_pre_irr (f : Nat) (e : RecEntry) : Bool :=
  decide (e.field_id = f ∧ e.agent_type = AgentTag.psps_anticipation
    ∧ e.action = RecommendationAction.PRE_IRRIGATE ∧ e.psps_alert = true)

/-- `order_by(created_at.desc()).limit(1)` over the filtered rows: the most
recent matching row. -/
def latest_matching (store : List RecEntry) (f : Nat) : Option RecEntry :=
  store.foldl (fun acc e =>
    if matches_pre_irr f e then
      match acc with
      | none => some e
      | some b => if b.created_at < e.created_at then some e else some b
    else acc) none

/-- The row `_create_pre_irrigation_recommendation` inserts. -/
def pre_irr_entry (now : ℚ) (f : Nat) (sh : ShutoffInfo) (hours_until : ℚ) : RecEntry :=
  { field_id := f
    agent_type := AgentTag.psps_anticipation
    action := RecommendationAction.PRE_IRRIGATE
    psps_alert := true
    created_at := now
    confidence := 17/20
    recommended_timing := now + max 1 (hours_until - 12)
    source_event := sh.id }

/-- `PSPSAlertAgent._create_pre_irrigation_recommendation`: skip when the most
recent matching row for the *field* is younger than six hours, otherwise
insert the new row. -/
def create_pre_irrigation_recommendation (now : ℚ) (store : List RecEntry) (f : Nat)
    (sh : ShutoffInfo) (hours_until : ℚ) : List RecEntry :=
  match latest_matching store f with
  | some e =>
    if now - e.created_at < 6 then store
    else store ++ [pre_irr_entry now f sh hours_until]
  | none => store ++ [pre_irr_entry now f sh hours_until]

/-- The pre-irrigation lead time: the owner's `psps_pre_irrigation_hours` when
the row exists and the integer is truthy, else the 36 h default. -/
def pre_irrigate_hours (prefs : Option UserPreferencesRec) : ℚ :=
  match prefs with
  | some p => if p.psps_pre_irrigation_hours ≠ 0 then p.psps_pre_irrigation_hours else 36
  | none => 36

/-- The body of `PSPSAlertAgent._check_pre_irrigation` for one
(field, shutoff) pair: require status `PREDICTED`, a parseable
`predicted_start_time` (against the *aware* now), and
`0 < hours_until ≤ lead`. -/
def check_pre_irrigation_one (now : ℚ) (store : List RecEntry) (f : Nat)
    (sh : ShutoffInfo) (prefs : Option UserPreferencesRec) : List RecEntry :=
  if sh.status ≠ "PREDICTED" then store
  else
    match sh.predicted_start_time with
    | none => store
    | some ts =>
      match hoursUntilAwareNow now ts with
      | none => store
      | some h =>
        if 0 < h ∧ h ≤ pre_irrigate_hours prefs then
          create_pre_irrigation_recommendation now store f sh h
        else store

/-- C7 counterexample: field 1 already has a PRE_IRRIGATE recommendation
created one hour ago for event "A"; a qualifying PREDICTED shutoff for the
*different* event "B" (24 h ahead, within the default 36 h lead) creates
nothing, because the suppression query filters only by field, agent, action
and psps flag — the claim's "for that exact event" restriction does not hold
(no row for event "B" exists, yet creation is skipped). -/
theorem c7_counterexample :
    check_pre_irrigation_one 100
        [⟨1, AgentTag.psps_anticipation, RecommendationAction.PRE_IRRIGATE, true, 99,
          17/20, 100, "A"⟩] 1 ⟨"B", "PREDICTED", some (TsStr.aware 124)⟩ none
      = [⟨1, AgentTag.psps_anticipation, RecommendationAction.PRE_IRRIGATE, true, 99,
          17/20, 100, "A"⟩]
    ∧ (∀ e ∈ [(⟨1, AgentTag.psps_anticipation, RecommendationAction.PRE_IRRIGATE, true, 99,
          17/20, 100, "A"⟩ : RecEntry)], e.source_event ≠ "B") := by
  constructor
  · norm_num [check_pre_irrigation_one, hoursUntilAwareNow, pre_irrigate_hours,
      create_pre_irrigation_recommendation, latest_matching, matches_pre_irr]
  · intro e he
    rw [List.mem_singleton.mp he]
    decide

/-- C7 amended: for a field with a PREDICTED shutoff whose aware start time is
in the future and within the owner's lead time (default 36 h), the agent
creates a PRE_IRRIGATE recommendation with confidence 0.85, `psps_alert`
true and timing `now + max 1 (hours_until − 12)` — *unless* the most recent
PRE_IRRIGATE PSPS recommendation for that field (regardless of which event
produced it) was created within the last 6 hours, in which case creation is
skipped. -/
theorem c7_pre_irrigation_amended (now : ℚ) (store : List RecEntry) (f : Nat)
    (sh : ShutoffInfo) (prefs : Option UserPreferencesRec) (t : ℚ)
    (hstatus : sh.status = "PREDICTED")
    (hts : sh.predicted_start_time = some (TsStr.aware t))
    (hwin : 0 < t - now ∧ t - now ≤ pre_irrigate_hours prefs) :
    (∀ e, latest_matching store f = some e → now - e.created_at < 6 →
      check_pre_irrigation_one now store f sh prefs = store)
    ∧ (∀ e, latest_matching store f = some e → ¬(now - e.created_at < 6) →
      check_pre_irrigation_one now store f sh prefs
        = store ++ [pre_irr_entry now f sh (t - now)])
    ∧ (latest_matching store f = none →
      check_pre_irrigation_one now store f sh prefs
        = store ++ [pre_irr_entry now f sh (t - now)])
    ∧ (pre_irr_entry now f sh (t - now)).confidence = 17/20
    ∧ (pre_irr_entry now f sh (t - now)).psps_alert = true
    ∧ (pre_irr_entry now f sh (t - now)).recommended_timing
        = now + max 1 ((t - now) - 12)
    ∧ (pre_irr_entry now f sh (t - now)).action = RecommendationAction.PRE_IRRIGATE := by
  have hbase : check_pre_irrigation_one now store f sh prefs
      = create_pre_irrigation_recommendation now store f sh (t - now) := by
    unfold check_pre_irrigation_one
    rw [if_neg (by simp [hstatus])]
    rw [hts]
    simp only [hoursUntilAwareNow]
    rw [if_pos hwin]
  refine ⟨?_, ?_, ?_, rfl, rfl, rfl, rfl⟩
  · intro e he hrecent
    rw [hbase]
    unfold create_pre_irrigation_recommendation
    rw [he]
    dsimp only
    rw [if_pos hrecent]
  · intro e he hrecent
    rw [hbase]
    unfold create_pre_irrigation_recommendation
    rw [he]
    dsimp only
    rw [if_neg hrecent]
  · intro he
    rw [hbase]
    unfold create_pre_irrigation_recommendation
    rw [he]

/-- Witness for C7's amended theorem: an empty store and a PREDICTED shutoff
24 hours ahead create the recommendation (timing `0 + max 1 12 = 12`). -/
theorem c7_pre_irrigation_amended_witness :
    check_pre_irrigation_one 0 [] 1 ⟨"E", "PREDICTED", some (TsStr.aware 24)⟩ none
      = [] ++ [pre_irr_entry 0 1 ⟨"E", "PREDICTED", some (TsStr.aware 24)⟩ (24 - 0)] :=
  (c7_pre_irrigation_amended 0 [] 1 ⟨"E", "PREDICTED", some (TsStr.aware 24)⟩ none 24
    rfl rfl ⟨by norm_num, by norm_num [pre_irrigate_hours]⟩).2.2.1 rfl

/-- Outcome of the field-record lookup in `_fetch_field_data`: found with or
without a `location_geom`, or not found (the db-error branch behaves like
`notFound`). -/
inductive FieldLookup where
  | notFound
  | found (location_geom : Option Unit)
deriving DecidableEq, Repr

/-- The hardcoded default `{"latitude": 38.5, "longitude": -122.5}`. -/
def DEFAULT_FIELD_LOCATION : ℚ × ℚ := (77/2, -245/2)

/-- `FireAdaptiveIrrigationAgent._fetch_field_data`: every branch — geometry
present, geometry absent, field not found, lookup failure — assigns the same
default location and crop stage and returns without error. -/
def fetch_field_data (lk : FieldLookup) : Option (ℚ × ℚ) × String :=
  match lk with
  | FieldLookup.found (some _) => (some DEFAULT_FIELD_LOCATION, "vegetative")
  | FieldLookup.found none => (some DEFAULT_FIELD_LOCATION, "vegetative")
  | FieldLookup.notFound => (some DEFAULT_FIELD_LOCATION, "vegetative")

/-- The gateway results `_fetch_external_data` stores into the state. -/
structure GatewayData where
  latest_moisture : Option ℚ
  weather : Option WeatherForecast
  fire : Option FireRiskData
  psps : Option (List PspsPrediction)
  ndvi : Option NdviData
deriving DecidableEq, Repr

/-- `_calculate_data_quality_score`: one point per populated slot out of
six. -/
def data_quality_score (loc : Option (ℚ × ℚ)) (g : GatewayData) : ℚ :=
  ((if g.latest_moisture.isSome then (1:ℚ) else 0)
    + (if g.weather.isSome then 1 else 0)
    + (if g.fire.isSome then 1 else 0)
    + (if g.psps.isSome then 1 else 0)
    + (if loc.isSome then 1 else 0)
    + (if g.ndvi.isSome then 1 else 0)) / 6

/-- `_calculate_confidence`.  `base_confidence = state.data_quality_score or
0.5` coerces a falsy score (0.0 — `None` cannot occur, `_calculate_metrics`
always assigns) to 0.5; the truthiness test
`fire_risk_high and state.current_soil_moisture` likewise treats moisture 0.0
like a missing reading. -/
def calculate_confidence (dq : ℚ) (action : RecommendationAction) (frs : ℚ)
    (moisture : Option ℚ) : ℚ :=
  let base := if dq = 0 then (1/2 : ℚ) else dq
  if action = RecommendationAction.PRE_IRRIGATE then min 1 (base + 3/10)
  else
    let fire_risk_high := decide (7/10 ≤ frs)
    let soil_moisture_low :=
      match moisture with
      | some m => decide (m < 30)
      | none => false
    let moisture_truthy :=
      match moisture with
      | some m => decide (m ≠ 0)
      | none => false
    if (fire_risk_high && moisture_truthy) || soil_moisture_low then min 1 (base + 2/10)
    else max (1/2) (base - 1/10)

/-- The fields of the final agent state that `create_recommendation`
persists. -/
structure IrrOutcome where
  recommended_action : Option RecommendationAction
  recommended_timing : ℚ
  psps_alert : Bool
  confidence : ℚ
  fire_risk_reduction_percent : ℚ
  water_saved_liters : ℚ
  data_quality_score : ℚ
deriving DecidableEq, Repr

/-- `FireAdaptiveIrrigationAgent.process`: the five pipeline stages in
sequence.  The error exits are the location guard at the top of
`_fetch_external_data` and any exception `_make_decision` raises (the NDVI
`KeyError`), both of which leave `process` with an error state; gateway
results are the `GatewayData` inputs (each gateway degrades to `none`
internally and never raises here). -/
def irrigation_process (now : ℚ) (lk : FieldLookup) (g : GatewayData) :
    Except String IrrOutcome :=
  let fd := fetch_field_data lk
  match fd.1 with
  | none => Except.error "Field location not available"
  | some _ =>
    let frs := calculate_fire_risk_score g.fire
    let drs := calculate_drought_risk_score g.latest_moisture g.weather
    let dq := data_quality_score fd.1 g
    match make_decision ⟨now, g.psps, some frs, g.latest_moisture, some drs, g.ndvi⟩ with
    | Except.error e => Except.error e
    | Except.ok d =>
      let conf := calculate_confidence dq d.recommended_action frs g.latest_moisture
      let impact := calculate_impact d.recommended_action (some frs)
      Except.ok ⟨some d.recommended_action, d.recommended_timing, d.psps_alert, conf,
        impact.1, impact.2, dq⟩

/-- The persisted columns `RecommendationService.create_recommendation`
writes. -/
structure PersistedRec where
  action : RecommendationAction
  psps_alert : Bool
  confidence : ℚ
deriving DecidableEq, Repr

/-- `RecommendationService.create_recommendation`: raises (`ValueError`) on an
agent error or a missing action — persisting nothing — and otherwise appends
exactly one row. -/
def create_recommendation (agent_result : Except String IrrOutcome)
    (store : List PersistedRec) : Except String (List PersistedRec) :=
  match agent_result with
  | Except.error e => Except.error ("Agent error: " ++ e)
  | Except.ok r =>
    match r.recommended_action with
    | none => Except.error "Agent did not generate a recommendation"
    | some a => Except.ok (store ++ [⟨a, r.psps_alert, r.confidence⟩])

/-- C5 counterexample: with the field record *not found* and every gateway
empty, the pipeline does not abort — it completes with MONITOR (confidence
0.5, data quality 1/6 from the defaulted location) and the caller persists a
row.  The claim's required abort-with-error and persist-nothing behaviour
does not occur. -/
theorem c5_counterexample :
    irrigation_process 0 FieldLookup.notFound ⟨none, none, none, none, none⟩
      = Except.ok ⟨some RecommendationAction.MONITOR, 12, false, 1/2, 0, 0, 1/6⟩
    ∧ create_recommendation
        (irrigation_process 0 FieldLookup.notFound ⟨none, none, none, none, none⟩) []
      = Except.ok [⟨RecommendationAction.MONITOR, false, 1/2⟩] := by
  have h1 : irrigation_process 0 FieldLookup.notFound ⟨none, none, none, none, none⟩
      = Except.ok ⟨some RecommendationAction.MONITOR, 12, false, 1/2, 0, 0, 1/6⟩ := by
    norm_num [irrigation_process, fetch_field_data, DEFAULT_FIELD_LOCATION,
      calculate_fire_risk_score, calculate_drought_risk_score, data_quality_score,
      make_decision, decideRest, crop_health_poor, calculate_confidence,
      calculate_impact]
    decide
  refine ⟨h1, ?_⟩
  rw [h1]
  rfl

/-- The pipeline, with the lookup-independent field stage evaluated: every
lookup outcome produces the same default location, after which the result is
governed by the decision stage alone. -/
theorem irrigation_process_eq (now : ℚ) (lk : FieldLookup) (g : GatewayData) :
    irrigation_process now lk g
      = match make_decision ⟨now, g.psps, some (calculate_fire_risk_score g.fire),
            g.latest_moisture,
            some (calculate_drought_risk_score g.latest_moisture g.weather), g.ndvi⟩ with
        | Except.error e => Except.error e
        | Except.ok d =>
          Except.ok ⟨some d.recommended_action, d.recommended_timing, d.psps_alert,
            calculate_confidence (data_quality_score (some DEFAULT_FIELD_LOCATION) g)
              d.recommended_action (calculate_fire_risk_score g.fire) g.latest_moisture,
            (calculate_impact d.recommended_action
              (some (calculate_fire_risk_score g.fire))).1,
            (calculate_impact d.recommended_action
              (some (calculate_fire_risk_score g.fire))).2,
            data_quality_score (some DEFAULT_FIELD_LOCATION) g⟩ := by
  cases lk with
  | notFound => rfl
  | found loc => cases loc <;> rfl

/-- C5 amended: the field-data stage never aborts — field not found and
missing location both degrade to the default location (38.5, −122.5) and crop
stage "vegetative" — so the pipeline's outcome is independent of the lookup
and the "Field location not available" guard is unreachable.  The decision
stage is not abort-free, though: the one abort after the lookup is the NDVI
`KeyError` of the IRRIGATE reason construction (demonstrated at a concrete
input), and on that abort — as on any agent error — the caller raises and
persists no row. -/
theorem c5_missing_field_degrades (lk : FieldLookup) :
    fetch_field_data lk = (some DEFAULT_FIELD_LOCATION, "vegetative")
    ∧ (∀ (now : ℚ) (g : GatewayData) (lk' : FieldLookup),
        irrigation_process now lk g = irrigation_process now lk' g)
    ∧ (∀ (now : ℚ) (g : GatewayData),
        irrigation_process now lk g ≠ Except.error "Field location not available")
    ∧ (∀ (now : ℚ) (g : GatewayData),
        (∃ r, irrigation_process now lk g = Except.ok r)
          ∨ irrigation_process now lk g = Except.error "KeyError: ndvi")
    ∧ irrigation_process 0 lk ⟨none, none, none, none, some ⟨some ⟨none, some "poor"⟩⟩⟩
        = Except.error "KeyError: ndvi"
    ∧ (∀ (e : String) (store : List PersistedRec),
        create_recommendation (Except.error e) store
          = Except.error ("Agent error: " ++ e)) := by
  refine ⟨?_, ?_, ?_, ?_, ?_, fun e store => rfl⟩
  · cases lk with
    | notFound => rfl
    | found loc => cases loc <;> rfl
  · intro now g lk'
    rw [irrigation_process_eq now lk g, irrigation_process_eq now lk' g]
  · intro now g
    rw [irrigation_process_eq now lk g]
    cases hm : make_decision ⟨now, g.psps, some (calculate_fire_risk_score g.fire),
        g.latest_moisture,
        some (calculate_drought_risk_score g.latest_moisture g.weather), g.ndvi⟩ with
    | ok d => simp
    | error e =>
      have he := make_decision_error_is_ndvi _ e hm
      subst he
      simp
  · intro now g
    rw [irrigation_process_eq now lk g]
    cases hm : make_decision ⟨now, g.psps, some (calculate_fire_risk_score g.fire),
        g.latest_moisture,
        some (calculate_drought_risk_score g.latest_moisture g.weather), g.ndvi⟩ with
    | ok d => exact Or.inl ⟨_, rfl⟩
    | error e =>
      have he := make_decision_error_is_ndvi _ e hm
      subst he
      exact Or.inr rfl
  · rw [irrigation_process_eq]
    have hm : make_decision ⟨0, none, some (calculate_fire_risk_score none), none,
        some (calculate_drought_risk_score none none),
        some ⟨some ⟨none, some "poor"⟩⟩⟩ = Except.error "KeyError: ndvi" := by
      norm_num [make_decision, decideRest, calculate_fire_risk_score,
        calculate_drought_risk_score, crop_health_poor, ndvi_value_missing]
    rw [hm]

/-- Witness for C5's amended theorem: the not-found lookup yields the default
location and the same completed MONITOR outcome as a found field. -/
theorem c5_missing_field_degrades_witness :
    fetch_field_data FieldLookup.notFound = (some DEFAULT_FIELD_LOCATION, "vegetative")
    ∧ irrigation_process 0 FieldLookup.notFound ⟨none, none, none, none, none⟩
        = irrigation_process 0 (FieldLookup.found none) ⟨none, none, none, none, none⟩ :=
  ⟨(c5_missing_field_degrades FieldLookup.notFound).1,
   (c5_missing_field_degrades FieldLookup.notFound).2.1 0 ⟨none, none, none, none, none⟩
     (FieldLookup.found none)⟩

end Growgent
